import Mathlib

/-!
Verification of the request-dispatch core (Router / Route) and the logging
helpers of the Connect processors toolkit, as a shallow embedding in Lean.

The repository ships the router package only through its re-exporting
`__init__.py` and the logger only through its tests, so the definitions below
are modelled from the specification document (and, for the logger, from the
behaviour its tests pin down); each such definition says so in its doc
comment.
-/

namespace CPT

/-- Modelled from the spec: an incoming request is an opaque object exposing a
`type` string and, conditionally, a `status` string and a nested action
identifier (`data.action_id`); absent fields are `none`. The missing code is
the request representation consumed by `connect.processors_toolkit.router`. -/
structure Request where
  type : String
  status : Option String
  action_id : Option String
deriving DecidableEq

/-- Modelled from the spec: a `Route` binds a matching predicate — an
`event_type` (required) plus optional `status` and `action` filters — to a
unary handler. A handler may return a result (`Except.ok`) or raise an
application exception (`Except.error`). The missing code is the `Route` class
of `connect/processors_toolkit/router/router.py`. -/
structure Route (ε α : Type) where
  event_type : String
  status : Option String
  action : Option String
  handler : Request → Except ε α

/-- Modelled from the spec: `Route.matches` returns False when
`request.type != self.event_type`; when `self.status` is set it requires the
request to carry an equal status (a request lacking the field does not match);
when `self.action` is set it requires an equal action identifier; otherwise it
returns True. Pure predicate, no side effects. -/
def Route.matches (r : Route ε α) (request : Request) : Bool :=
  request.type == r.event_type
    && (match r.status with
        | some s => request.status == some s
        | none => true)
    && (match r.action with
        | some a => request.action_id == some a
        | none => true)

/-- Modelled from the spec: the two dispatch-time failures the Router itself
raises — `ProductActionNotFound(status, action)` and
`CustomEventNotFound(event_type)` — each carrying the unmatched
discriminators. -/
inductive DispatchError where
  | productActionNotFound (status : Option String) (action : Option String)
  | customEventNotFound (event_type : String)
deriving DecidableEq

/-- Outcome of a Python call that may return a value, raise one of the
Router's own not-found errors, or let a handler-raised exception propagate. -/
inductive Outcome (ε α : Type) where
  | result (v : α)
  | notFound (e : DispatchError)
  | handlerRaise (e : ε)
deriving DecidableEq

/-- Lift a handler invocation into a dispatch outcome: a returned value is the
dispatch result, a raised exception propagates as `handlerRaise`. -/
def outcomeOf (r : Except ε α) : Outcome ε α :=
  match r with
  | .ok v => .result v
  | .error e => .handlerRaise e

/-- Modelled from the spec: the Router owns an ordered sequence of Routes,
insertion order preserved (registration order is the match-priority order).
The missing code is the `Router` class of
`connect/processors_toolkit/router/router.py`. -/
structure Router (ε α : Type) where
  routes : List (Route ε α)

/-- A Router with an empty registry. -/
def Router.empty : Router ε α := ⟨[]⟩

/-- Modelled from the spec: the Route that `dispatch` selects — the first
registered Route whose `matches(request)` is true, if any. -/
def Router.selection (rt : Router ε α) (request : Request) : Option (Route ε α) :=
  rt.routes.find? (fun r => r.matches request)

/-- Modelled from the spec: `dispatch` scans registered Routes in registration
order and returns the result of invoking the first matching Route's handler on
the request (a handler exception propagates unmodified); when none matches it
raises `ProductActionNotFound(status, action)` for a `"product_action"`
request and `CustomEventNotFound(event_type)` otherwise. -/
def Router.dispatch (rt : Router ε α) (request : Request) : Outcome ε α :=
  match rt.selection request with
  | some r => outcomeOf (r.handler request)
  | none =>
    if request.type == "product_action" then
      .notFound (.productActionNotFound request.status request.action_id)
    else
      .notFound (.customEventNotFound request.type)

/-- Modelled from the spec: configuration errors raised at registration time —
a non-callable handler, or an empty required discriminator string. -/
inductive ConfigError where
  | notCallable
  | emptyDiscriminator
deriving DecidableEq

/-- A Python value passed as a handler: either actually callable or not
(registration validates callability). -/
inductive PyCallable (ε α : Type) where
  | callable (f : Request → Except ε α)
  | notCallable

/-- Modelled from the spec: `register_product_action_route(status, action,
handler)` appends a Route with `event_type="product_action"` and the given
filters; it fails with a configuration error if `handler` is not callable or
`action`/`status` are empty strings, leaving the registry unchanged
(all-or-nothing per call). Python mutation is rendered as state passing: the
call returns the raised error (or unit) paired with the Router afterwards. -/
def Router.register_product_action_route (rt : Router ε α) (status action : String)
    (handler : PyCallable ε α) : Except ConfigError Unit × Router ε α :=
  match handler with
  | .notCallable => (.error .notCallable, rt)
  | .callable f =>
    if status = "" ∨ action = "" then
      (.error .emptyDiscriminator, rt)
    else
      (.ok (), ⟨rt.routes ++ [⟨"product_action", some status, some action, f⟩]⟩)

/-- Modelled from the spec: `register_custom_event_route(event_type, handler)`
appends a Route with the given `event_type` and no status/action filters; it
fails with a configuration error if `handler` is not callable or `event_type`
is empty, leaving the registry unchanged. (The spec's optional
duplicate-exact-route rejection is not adopted: duplicates are kept, first
match wins.) -/
def Router.register_custom_event_route (rt : Router ε α) (event_type : String)
    (handler : PyCallable ε α) : Except ConfigError Unit × Router ε α :=
  match handler with
  | .notCallable => (.error .notCallable, rt)
  | .callable f =>
    if event_type = "" then
      (.error .emptyDiscriminator, rt)
    else
      (.ok (), ⟨rt.routes ++ [⟨event_type, none, none, f⟩]⟩)

/-- Modelled from the spec: dispatch is a pure read over the
immutable-after-setup registry ("no hidden state mutation from dispatch
itself"); its state-passing form returns the outcome together with the Router
state after the call. -/
def Router.dispatchS (rt : Router ε α) (request : Request) :
    Outcome ε α × Router ε α :=
  (rt.dispatch request, rt)

/-- Modelled from the spec: the JSON-like payloads the value-masking utility
walks — strings, integers, nested dictionaries and lists. The missing code is
the payload shape accepted by `connect.processors_toolkit.logger.mask`. -/
inductive JValue where
  | str (s : String)
  | int (n : Int)
  | obj (fields : List (String × JValue))
  | arr (items : List JValue)

/-- A string of `n` characters, all asterisks. -/
def stars (n : Nat) : String := String.mk (List.replicate n '*')

/-- The masked rendering of a scalar value: asterisks, one per character of
the value's string form. Containers are never masked directly — the traversal
recurses into them instead. -/
def JValue.masked : JValue → JValue
  | .str s => .str (stars s.length)
  | .int n => .str (stars (toString n).length)
  | v => v

mutual
/-- Modelled from the spec: `mask(payload, keys)` returns the dictionary with
every entry whose key is listed in `keys` replaced by a length-preserving
string of asterisks, recursing into nested dictionaries and lists and leaving
every other entry unchanged. The missing code is
`connect.processors_toolkit.logger.mask`, pinned down by
`test_mask_function_should_mask_the_required_values`. -/
def mask (payload : List (String × JValue)) (keys : List String) :
    List (String × JValue) :=
  match payload with
  | [] => []
  | (k, v) :: rest => (k, maskEntry keys k v) :: mask rest keys

/-- The masked value of one dictionary entry: containers are recursed into,
a scalar under a listed key is replaced by asterisks, anything else is kept. -/
def maskEntry (keys : List String) (k : String) (v : JValue) : JValue :=
  match v with
  | .obj fields => .obj (mask fields keys)
  | .arr items => .arr (maskList keys items)
  | v => if keys.contains k then v.masked else v

/-- Masking mapped over the items of a list value. -/
def maskList (keys : List String) (items : List JValue) : List JValue :=
  match items with
  | [] => []
  | v :: rest => maskItem keys v :: maskList keys rest

/-- Masking of one list item: containers are recursed into; a bare scalar in a
list has no key and is kept as is. -/
def maskItem (keys : List String) (v : JValue) : JValue :=
  match v with
  | .obj fields => .obj (mask fields keys)
  | .arr items => .arr (maskList keys items)
  | v => v
end

/-- Modelled from the spec: the request argument handed to `bind_logger` — a
request dictionary, a `RequestBuilder` wrapping one, or some invalid object
such as a plain string. The missing code is
`connect.processors_toolkit.requests.RequestBuilder` as consumed by
`connect.processors_toolkit.logger.mixins.WithBoundedLogger`. -/
inductive PyRequest where
  | dict (fields : List (String × String))
  | builder (fields : List (String × String))
  | invalid (s : String)

/-- The request identifier `bind_logger` can extract: the `id` field of a
request dictionary or of a `RequestBuilder`; nothing from an invalid object. -/
def request_id_of : PyRequest → Option String
  | .dict fields => fields.lookup "id"
  | .builder fields => fields.lookup "id"
  | .invalid _ => none

/-- Modelled from the spec: `bind_logger` rebuilds the logger adapter's extra
context with the request's `id` bound (as `id` and `request_id`) when one can
be extracted, and leaves the configuration unchanged — without raising — when
the request is invalid. The missing code is
`WithBoundedLogger.bind_logger` of `connect.processors_toolkit.logger.mixins`,
pinned down by the three `test_bounded_logger_*` tests. -/
def bind_logger (adapterExtra : List (String × String)) (request : PyRequest) :
    List (String × String) :=
  match request_id_of request with
  | some i => ("id", i) :: ("request_id", i) :: adapterExtra
  | none => adapterExtra

/-! Concrete fixtures used by the scenario theorems and the witnesses. -/

/-- A product-action route on status `"approved"` whose handler returns `"A"`. -/
def routeA : Route String String :=
  ⟨"product_action", some "approved", none, fun _ => .ok "A"⟩

/-- A product-action route on status `"approved"` whose handler returns `"B"`,
registered after `routeA` and overlapping it. -/
def routeB : Route String String :=
  ⟨"product_action", some "approved", none, fun _ => .ok "B"⟩

/-- An approved product-action request, matched by both `routeA` and
`routeB`. -/
def reqApproved : Request := ⟨"product_action", some "approved", none⟩

/-- A pending `activate` product-action request. -/
def reqPending : Request := ⟨"product_action", some "pending", some "activate"⟩

/-- A product-action route on `("approved", "activate")` — it does not match
`reqPending`. -/
def routeApprovedActivate : Route String String :=
  ⟨"product_action", some "approved", some "activate", fun _ => .ok "activated"⟩

/-- A custom-event request of type `"asset_purchase_request_processing"`. -/
def reqAsset : Request := ⟨"asset_purchase_request_processing", none, none⟩

/-- A custom-event route for `"ping"` whose handler raises `"boom"`. -/
def routeBoom : Route String String :=
  ⟨"ping", none, none, fun _ => .error "boom"⟩

/-- A `"ping"` request. -/
def reqPing : Request := ⟨"ping", none, none⟩

/-- The Router obtained by registering `register_custom_event_route("ping",
lambda r: "pong")` on an empty Router. -/
def pingRouter : Router String String :=
  ((Router.empty).register_custom_event_route "ping"
    (.callable fun _ => .ok "pong")).2

/-- The payload of `test_mask_function_should_mask_the_required_values`. -/
def testPayload : List (String × JValue) :=
  [("id", .str "123456"),
   ("payload", .obj
     [("key", .str "mask-this-value"),
      ("users", .arr
        [.obj [("id", .int 1), ("password", .str "1")],
         .obj [("id", .int 2), ("password", .str "22")],
         .obj [("id", .int 3), ("password", .str "333")]])])]

/-- The expected masked payload of the same test. -/
def testExpected : List (String × JValue) :=
  [("id", .str "123456"),
   ("payload", .obj
     [("key", .str "***************"),
      ("users", .arr
        [.obj [("id", .int 1), ("password", .str "*")],
         .obj [("id", .int 2), ("password", .str "**")],
         .obj [("id", .int 3), ("password", .str "***")]])])]


theorem Route.matches_spec (r : Route ε α) (request : Request) :
    (r.matches request = true ↔
       request.type = r.event_type
       ∧ (∀ s, r.status = some s → request.status = some s)
       ∧ (∀ a, r.action = some a → request.action_id = some a))
    ∧ ((∃ s, r.status = some s) → request.status = none →
        r.matches request = false)
    ∧ ((∃ a, r.action = some a) → request.action_id = none →
        r.matches request = false)
    ∧ (r.status = none → r.action = none →
        (r.matches request = true ↔ request.type = r.event_type)) := by
  cases hs : r.status <;> cases ha : r.action <;>
    simp [Route.matches, hs, ha] <;>
    aesop


/-- Finding in `pre ++ A :: post` with no hit in `pre` and a hit at `A`
returns `A`. -/
theorem find_first {γ : Type} (p : γ → Bool) (pre post : List γ) (A : γ)
    (hpre : ∀ r ∈ pre, p r = false) (hA : p A = true) :
    (pre ++ A :: post).find? p = some A := by
  induction pre with
  | nil => simpa using List.find?_cons_of_pos _ hA
  | cons x xs ih =>
    have hx : p x = false := hpre x (List.mem_cons_self x xs)
    have := ih (fun r hr => hpre r (List.mem_cons_of_mem x hr))
    simpa [List.find?_cons_of_neg, hx] using this

/-- C1: with the registry decomposed as `pre ++ [A] ++ post` where nothing in
`pre` matches and `A` matches, `dispatch` selects `A` — the earliest-registered
matching Route — and returns the outcome of invoking its handler on the
request alone; later matching Routes in `post` are never invoked. -/
theorem Router.dispatch_first_match (rt : Router ε α) (request : Request)
    (pre post : List (Route ε α)) (A : Route ε α)
    (hr : rt.routes = pre ++ A :: post)
    (hpre : ∀ r ∈ pre, r.matches request = false)
    (hA : A.matches request = true) :
    rt.selection request = some A
      ∧ rt.dispatch request = outcomeOf (A.handler request) := by
  have hsel : rt.selection request = some A := by
    unfold Router.selection
    rw [hr]
    exact find_first _ pre post A hpre hA
  refine ⟨hsel, ?_⟩
  unfold Router.dispatch
  rw [hsel]

/-- C1 witness: `routeA` and `routeB` are registered in that order and both
match `reqApproved`; dispatch selects `routeA` and invokes its handler. -/
theorem Router.dispatch_first_match_witness :
    CPT.routeB.matches CPT.reqApproved = true
      ∧ (Router.mk [CPT.routeA, CPT.routeB]).selection CPT.reqApproved
          = some CPT.routeA
      ∧ (Router.mk [CPT.routeA, CPT.routeB]).dispatch CPT.reqApproved
          = outcomeOf (CPT.routeA.handler CPT.reqApproved) :=
  ⟨rfl,
   Router.dispatch_first_match (Router.mk [CPT.routeA, CPT.routeB]) CPT.reqApproved
     [] [CPT.routeB] CPT.routeA rfl (by simp) rfl⟩


/-- C3: when no registered Route matches a `"product_action"` request,
`dispatch` raises `ProductActionNotFound` carrying the request's unmatched
status and action values. -/
theorem Router.dispatch_product_action_not_found (rt : Router ε α)
    (request : Request) (htype : request.type = "product_action")
    (hnone : ∀ r ∈ rt.routes, r.matches request = false) :
    rt.dispatch request
      = .notFound (.productActionNotFound request.status request.action_id) := by
  have hsel : rt.selection request = none := by
    unfold Router.selection
    exact List.find?_eq_none.mpr (fun r hr => by simp [hnone r hr])
  unfold Router.dispatch
  rw [hsel]
  simp [htype]

/-- C3 witness: a pending `activate` request against a registry whose only
product-action route is on `("approved", "activate")` raises
`ProductActionNotFound` carrying `("pending", "activate")`. -/
theorem Router.dispatch_product_action_not_found_witness :
    (Router.mk [CPT.routeApprovedActivate]).dispatch CPT.reqPending
      = .notFound (.productActionNotFound (some "pending") (some "activate")) :=
  Router.dispatch_product_action_not_found (Router.mk [CPT.routeApprovedActivate])
    CPT.reqPending rfl
    (by
      intro r hr
      rw [List.mem_singleton] at hr
      subst hr
      rfl)

/-- C4: when no registered Route matches a request whose type is not
`"product_action"`, `dispatch` raises `CustomEventNotFound` carrying the
unmatched event type; moreover `ProductActionNotFound` and
`CustomEventNotFound` are the only failures `dispatch` itself raises. -/
theorem Router.dispatch_custom_event_not_found (rt : Router ε α)
    (request : Request) (htype : request.type ≠ "product_action")
    (hnone : ∀ r ∈ rt.routes, r.matches request = false) :
    rt.dispatch request = .notFound (.customEventNotFound request.type)
      ∧ ∀ (rt2 : Router ε α) (request2 : Request) (d : DispatchError),
          rt2.dispatch request2 = .notFound d →
            (∃ s a, d = .productActionNotFound s a)
              ∨ (∃ t, d = .customEventNotFound t) := by
  constructor
  · have hsel : rt.selection request = none := by
      unfold Router.selection
      exact List.find?_eq_none.mpr (fun r hr => by simp [hnone r hr])
    unfold Router.dispatch
    rw [hsel]
    simp [htype]
  · intro rt2 request2 d _
    cases d with
    | productActionNotFound s a => exact Or.inl ⟨s, a, rfl⟩
    | customEventNotFound t => exact Or.inr ⟨t, rfl⟩

/-- C4 witness: an `"asset_purchase_request_processing"` request against a
registry with no matching Route raises
`CustomEventNotFound("asset_purchase_request_processing")`. -/
theorem Router.dispatch_custom_event_not_found_witness :
    (Router.mk [CPT.routeApprovedActivate]).dispatch CPT.reqAsset
      = .notFound (.customEventNotFound "asset_purchase_request_processing") :=
  (Router.dispatch_custom_event_not_found (Router.mk [CPT.routeApprovedActivate])
    CPT.reqAsset (by decide)
    (by
      intro r hr
      rw [List.mem_singleton] at hr
      subst hr
      rfl)).1

/-- C5: when some Route is selected, `dispatch` returns exactly the outcome of
its handler applied to the request: a returned value is passed through
unchanged, a handler-raised exception propagates unmodified (never wrapped,
translated or suppressed into a Router failure), and in that case `dispatch`
raises no not-found error of its own. -/
theorem Router.dispatch_passthrough (rt : Router ε α) (request : Request)
    (r : Route ε α) (hsel : rt.selection request = some r) :
    rt.dispatch request = outcomeOf (r.handler request)
      ∧ (∀ v, r.handler request = .ok v → rt.dispatch request = .result v)
      ∧ (∀ e, r.handler request = .error e →
          rt.dispatch request = .handlerRaise e)
      ∧ (∀ d, rt.dispatch request ≠ .notFound d) := by
  have hd : rt.dispatch request = outcomeOf (r.handler request) := by
    unfold Router.dispatch
    rw [hsel]
  refine ⟨hd, ?_, ?_, ?_⟩
  · intro v hv
    rw [hd, hv]
    rfl
  · intro e he
    rw [hd, he]
    rfl
  · intro d
    rw [hd]
    cases hr : r.handler request <;> simp [outcomeOf]

/-- C5 witness: the `"ping"` route whose handler raises `"boom"` is selected,
and dispatch propagates exactly that exception. -/
theorem Router.dispatch_passthrough_witness :
    (Router.mk [CPT.routeBoom]).dispatch CPT.reqPing = .handlerRaise "boom" :=
  (Router.dispatch_passthrough (Router.mk [CPT.routeBoom]) CPT.reqPing
    CPT.routeBoom rfl).2.2.1 "boom" rfl


/-- C6: registration raises a configuration error for a non-callable handler
or an empty required discriminator, leaves the registry unchanged on every
failing call, and appends exactly one Route on every succeeding call. -/
theorem Router.register_config_spec (rt : Router ε α)
    (status action event_type : String) (handler : PyCallable ε α) :
    ((handler = .notCallable ∨ status = "" ∨ action = "") →
        ∃ e, (rt.register_product_action_route status action handler).1
          = .error e)
    ∧ (event_type = "" →
        ∃ e, (rt.register_custom_event_route event_type handler).1 = .error e)
    ∧ (∀ e, (rt.register_product_action_route status action handler).1
          = .error e →
        (rt.register_product_action_route status action handler).2 = rt)
    ∧ (∀ e, (rt.register_custom_event_route event_type handler).1 = .error e →
        (rt.register_custom_event_route event_type handler).2 = rt)
    ∧ ((rt.register_product_action_route status action handler).1 = .ok () →
        ∃ r, (rt.register_product_action_route status action handler).2.routes
          = rt.routes ++ [r])
    ∧ ((rt.register_custom_event_route event_type handler).1 = .ok () →
        ∃ r, (rt.register_custom_event_route event_type handler).2.routes
          = rt.routes ++ [r]) := by
  cases handler with
  | notCallable =>
    simp [Router.register_product_action_route, Router.register_custom_event_route]
  | callable f =>
    constructor
    · intro h
      have hse : status = "" ∨ action = "" := by
        rcases h with h | h | h
        · exact absurd h (by simp)
        · exact Or.inl h
        · exact Or.inr h
      simp [Router.register_product_action_route, hse]
    constructor
    · intro h
      simp [Router.register_custom_event_route, h]
    constructor
    · intro e he
      by_cases hse : status = "" ∨ action = ""
      · simp [Router.register_product_action_route, hse]
      · simp [Router.register_product_action_route, hse] at he
    constructor
    · intro e he
      by_cases het : event_type = ""
      · simp [Router.register_custom_event_route, het]
      · simp [Router.register_custom_event_route, het] at he
    constructor
    · intro h
      by_cases hse : status = "" ∨ action = ""
      · simp [Router.register_product_action_route, hse] at h
      · exact ⟨⟨"product_action", some status, some action, f⟩,
          by simp [Router.register_product_action_route, hse]⟩
    · intro h
      by_cases het : event_type = ""
      · simp [Router.register_custom_event_route, het] at h
      · exact ⟨⟨event_type, none, none, f⟩,
          by simp [Router.register_custom_event_route, het]⟩

/-- C7: `dispatch` mutates nothing — the Router after a dispatch call is the
Router before it — and a second dispatch of the same request against the
resulting state yields the same outcome and the same Route selection. -/
theorem Router.dispatch_deterministic (rt : Router ε α) (request : Request) :
    (rt.dispatchS request).2 = rt
      ∧ ((rt.dispatchS request).2.dispatchS request).1
          = (rt.dispatchS request).1
      ∧ ((rt.dispatchS request).2).selection request = rt.selection request :=
  ⟨rfl, rfl, rfl⟩

/-- C8: registering `register_custom_event_route("ping", lambda r: "pong")`
succeeds, and dispatching a request of type `"ping"` returns `"pong"`. -/
theorem Router.dispatch_ping_pong :
    ((Router.empty : Router String String).register_custom_event_route "ping"
        (.callable fun _ => .ok "pong")).1 = .ok ()
      ∧ CPT.pingRouter.dispatch CPT.reqPing = .result "pong" :=
  ⟨rfl, rfl⟩


/-- Masking rewrites each dictionary entry in place through `maskEntry`. -/
theorem mask_eq_map (payload : List (String × JValue)) (keys : List String) :
    mask payload keys
      = payload.map (fun kv => (kv.1, maskEntry keys kv.1 kv.2)) := by
  induction payload with
  | nil => rfl
  | cons kv rest ih =>
    obtain ⟨k, v⟩ := kv
    simp [mask, ih]

/-- Masking rewrites each list item in place through `maskItem`. -/
theorem maskList_eq_map (keys : List String) (items : List JValue) :
    maskList keys items = items.map (maskItem keys) := by
  induction items with
  | nil => rfl
  | cons v rest ih => simp [maskList, ih]

/-- C9: `mask(payload, keys)` keeps the key sequence of the dictionary; a
string entry under a listed key is replaced by asterisks of the same length; a
scalar entry under an unlisted key is returned unchanged; nested dictionaries
and lists are traversed recursively; and on the logger test's payload it
produces exactly the expected masked payload. -/
theorem mask_spec (payload : List (String × JValue)) (keys : List String) :
    (mask payload keys).map Prod.fst = payload.map Prod.fst
      ∧ (∀ n, (stars n).length = n)
      ∧ (∀ k s, (k, JValue.str s) ∈ payload → keys.contains k = true →
          (k, JValue.str (stars s.length)) ∈ mask payload keys)
      ∧ (∀ k s, (k, JValue.str s) ∈ payload → keys.contains k = false →
          (k, JValue.str s) ∈ mask payload keys)
      ∧ (∀ k n, (k, JValue.int n) ∈ payload → keys.contains k = false →
          (k, JValue.int n) ∈ mask payload keys)
      ∧ (∀ k fields, (k, JValue.obj fields) ∈ payload →
          (k, JValue.obj (mask fields keys)) ∈ mask payload keys)
      ∧ (∀ k items, (k, JValue.arr items) ∈ payload →
          (k, JValue.arr (items.map (maskItem keys))) ∈ mask payload keys)
      ∧ mask CPT.testPayload ["key", "password"] = CPT.testExpected := by
  refine ⟨?_, ?_, ?_, ?_, ?_, ?_, ?_, rfl⟩
  · rw [mask_eq_map, List.map_map]
    rfl
  · intro n
    simp [stars]
  · intro k s hm hc
    have hk : k ∈ keys := by simpa using hc
    rw [mask_eq_map]
    have : (k, JValue.str (stars s.length))
        = (fun kv : String × JValue => (kv.1, maskEntry keys kv.1 kv.2))
            (k, JValue.str s) := by
      simp [maskEntry, hk, JValue.masked]
    rw [this]
    exact List.mem_map_of_mem _ hm
  · intro k s hm hc
    have hk : k ∉ keys := by simpa using hc
    rw [mask_eq_map]
    have : (k, JValue.str s)
        = (fun kv : String × JValue => (kv.1, maskEntry keys kv.1 kv.2))
            (k, JValue.str s) := by
      simp [maskEntry, hk]
    rw [this]
    exact List.mem_map_of_mem _ hm
  · intro k n hm hc
    have hk : k ∉ keys := by simpa using hc
    rw [mask_eq_map]
    have : (k, JValue.int n)
        = (fun kv : String × JValue => (kv.1, maskEntry keys kv.1 kv.2))
            (k, JValue.int n) := by
      simp [maskEntry, hk]
    rw [this]
    exact List.mem_map_of_mem _ hm
  · intro k fields hm
    rw [mask_eq_map]
    have : (k, JValue.obj (mask fields keys))
        = (fun kv : String × JValue => (kv.1, maskEntry keys kv.1 kv.2))
            (k, JValue.obj fields) := by
      simp [maskEntry]
    rw [this]
    exact List.mem_map_of_mem _ hm
  · intro k items hm
    rw [mask_eq_map]
    have : (k, JValue.arr (items.map (maskItem keys)))
        = (fun kv : String × JValue => (kv.1, maskEntry keys kv.1 kv.2))
            (k, JValue.arr items) := by
      simp [maskEntry, maskList_eq_map]
    rw [this]
    exact List.mem_map_of_mem _ hm

/-- C10: calling `bind_logger` with an invalid request (a plain string, neither
a mapping with an `id` nor a RequestBuilder) returns normally and leaves the
logger's extra context exactly as it was; in particular from an empty context
no `id` or `request_id` binding appears. -/
theorem bind_logger_invalid (adapterExtra : List (String × String))
    (s : String) :
    bind_logger adapterExtra (.invalid s) = adapterExtra
      ∧ (bind_logger [] (.invalid "Some invalid request")).lookup "id" = none
      ∧ (bind_logger []
          (.invalid "Some invalid request")).lookup "request_id" = none :=
  ⟨rfl, rfl, rfl⟩

end CPT
